import Mathlib

/-!
Shallow embedding of the email-api contact-form relay.

The embedded code:
  * the request dispatch pipeline (rate limiter, validator, CORS policy,
    dispatcher state machine) from the server module;
  * the mailer message construction, including the HTML-escaping transform;
  * the startup configuration loader.

JavaScript strings are modelled as Lean strings (lists of characters),
timestamps as natural numbers of milliseconds, the mutable rate-limit Map
as an association list threaded through each call, and parsed JSON values
as an inductive type.  JavaScript truthiness is modelled explicitly where
the source relies on it.
-/

namespace EmailApi

/-- A parsed JSON value, as produced by JSON.parse or by a successful
request-body parse.  Object fields are kept as an association list; a
parsed object has pairwise distinct keys, and property access returns the
first binding. -/
inductive Json where
  | null : Json
  | bool (b : Bool) : Json
  | num (n : Int) : Json
  | str (s : String) : Json
  | arr (elems : List Json) : Json
  | obj (fields : List (String × Json)) : Json

/-- JavaScript property access b.key on a parsed JSON value: defined
bindings on objects, undefined (none) everywhere else (a parsed JSON
array or primitive has no named string-valued properties). -/
def jsGet (v : Json) (key : String) : Option Json :=
  match v with
  | .obj fields => fields.lookup key
  | _ => none

/-- JavaScript truthiness of a possibly-undefined value: undefined, null,
false, 0 and the empty string are falsy; everything else is truthy. -/
def jsTruthy (v : Option Json) : Bool :=
  match v with
  | none => false
  | some .null => false
  | some (.bool b) => b
  | some (.num n) => n != 0
  | some (.str s) => s != ""
  | some (.arr _) => true
  | some (.obj _) => true

/-- The JavaScript typeof test used by the validator: typeof v is the
string "object" exactly for null, arrays and plain objects. -/
def jsTypeofIsObject (v : Json) : Bool :=
  match v with
  | .null => true
  | .arr _ => true
  | .obj _ => true
  | _ => false

/-- Whether a possibly-undefined value is a string (typeof v is the
string "string"). -/
def jsIsString (v : Option Json) : Bool :=
  match v with
  | some (.str _) => true
  | _ => false

/-- The string content of a possibly-undefined value, or the empty string
when it is not a string (only read behind a jsIsString guard). -/
def jsAsString (v : Option Json) : String :=
  match v with
  | some (.str s) => s
  | _ => ""

/-- JavaScript String.includes with a single-character needle: the
character occurs somewhere in the string. -/
def strIncludes (s : String) (c : Char) : Bool :=
  s.data.contains c

/-- The JavaScript strict-equality test body === null. -/
def jsIsNull (v : Json) : Bool :=
  match v with
  | .null => true
  | _ => false

/-! ## Validator (validateBody from the server module) -/

/-- Embeds validateBody: the structural type guard narrowing a parsed
request body to ContactFormData.  Mirrors the source conjunction,
including the truthiness-based phone clause. -/
def validateBody (body : Json) : Bool :=
  if !(jsTypeofIsObject body) || jsIsNull body then false
  else
    jsIsString (jsGet body "email") &&
    jsIsString (jsGet body "name") &&
    jsIsString (jsGet body "message") &&
    ((jsTruthy (jsGet body "phone") &&
      jsIsString (jsGet body "phone") &&
      (jsAsString (jsGet body "phone")).length > 0) ||
     ! jsTruthy (jsGet body "phone")) &&
    strIncludes (jsAsString (jsGet body "email")) '@' &&
    (jsAsString (jsGet body "name")).length > 0 &&
    (jsAsString (jsGet body "message")).length > 0

/-! ## RateLimiter (isRateLimited from the server module) -/

/-- One value of the rate-limit Map: request count and window expiry
timestamp in milliseconds. -/
structure RLEntry where
  count : Nat
  resetAt : Nat
deriving DecidableEq, Repr

/-- The module-level rateLimitMap, modelled as an association list keyed
by client address. -/
abbrev RLState := List (String × RLEntry)

/-- Map.get on the rate-limit map. -/
def rlGet (s : RLState) (k : String) : Option RLEntry :=
  s.lookup k

/-- Map.set on the rate-limit map: replaces an existing binding in place,
otherwise appends a new one. -/
def rlSet (s : RLState) (k : String) (v : RLEntry) : RLState :=
  match s with
  | [] => [(k, v)]
  | (k', v') :: rest =>
    if k' = k then (k, v) :: rest else (k', v') :: rlSet rest k v

/-- RATE_LIMIT from the server module. -/
def RATE_LIMIT : Nat := 5

/-- RATE_WINDOW_MS from the server module. -/
def RATE_WINDOW_MS : Nat := 60000

/-- Embeds isRateLimited.  The current time and the map are passed
explicitly; the result pairs the returned boolean with the updated map.
Absent entry or now strictly past resetAt reinitializes the entry to
count 1 and allows the call; otherwise the count is incremented and the
call is limited iff the incremented count exceeds RATE_LIMIT. -/
def isRateLimited (now : Nat) (s : RLState) (ip : String) : Bool × RLState :=
  match rlGet s ip with
  | none => (false, rlSet s ip ⟨1, now + RATE_WINDOW_MS⟩)
  | some entry =>
    if now > entry.resetAt then
      (false, rlSet s ip ⟨1, now + RATE_WINDOW_MS⟩)
    else
      (entry.count + 1 > RATE_LIMIT, rlSet s ip ⟨entry.count + 1, entry.resetAt⟩)

/-- A sequence of isRateLimited calls for one client key at the given
times, returning for each call whether it was allowed (not limited). -/
def runCalls (k : String) (s : RLState) : List Nat → List Bool
  | [] => []
  | t :: ts =>
    let r := isRateLimited t s k
    (! r.1) :: runCalls k r.2 ts

/-! ## ConfigStore (config.ts, post-load shape) -/

/-- SmtpConfig after loading: defaults already applied. -/
structure SmtpConfig where
  host : String
  port : Nat
  secure : Bool
  user : String
  pass : String
deriving DecidableEq, Repr

/-- OriginConfig after loading. -/
structure OriginConfig where
  name : String
  toEmail : String
  smtp : SmtpConfig
deriving DecidableEq, Repr

/-- The loaded config.origins Map, one binding per configured origin. -/
abbrev ConfigStore := List (String × OriginConfig)

/-- Embeds getOriginConfig: null (and, by falsiness, empty) origins
resolve to nothing, otherwise the origin is looked up in the store. -/
def getOriginConfig (cfg : ConfigStore) (origin : Option String) : Option OriginConfig :=
  match origin with
  | none => none
  | some o => if o = "" then none else cfg.lookup o

/-- Embeds isAllowedOrigin: null (and, by falsiness, empty) origins are
not allowed, otherwise membership in the store decides. -/
def isAllowedOrigin (cfg : ConfigStore) (origin : Option String) : Bool :=
  match origin with
  | none => false
  | some o => if o = "" then false else (cfg.lookup o).isSome

/-! ## CorsPolicy (corsHeaders from the server module) -/

/-- Embeds corsHeaders: the three CORS headers computed from the request
Origin header (none models an absent header). -/
def corsHeaders (cfg : ConfigStore) (origin : Option String) : List (String × String) :=
  let allowedOrigin :=
    match origin with
    | some o => if o ≠ "" && isAllowedOrigin cfg (some o) then o else ""
    | none => ""
  [("Access-Control-Allow-Origin", allowedOrigin),
   ("Access-Control-Allow-Methods", "POST, OPTIONS"),
   ("Access-Control-Allow-Headers", "Content-Type")]

/-! ## Mailer (sendContactEmail and escapeHtml from the mailer module) -/

/-- JavaScript String.replace with a global single-character pattern:
every occurrence of the character c in the input is replaced by rep, in
one left-to-right pass over the original characters. -/
def replaceAllChar (c : Char) (rep : List Char) : List Char → List Char
  | [] => []
  | x :: xs => (if x = c then rep else [x]) ++ replaceAllChar c rep xs

/-- Embeds escapeHtml: the four sequential global replacements, ampersand
first, then the angle brackets, then the double quote. -/
def escapeHtml (s : String) : String :=
  String.mk
    (replaceAllChar '"' "&quot;".data
      (replaceAllChar '>' "&gt;".data
        (replaceAllChar '<' "&lt;".data
          (replaceAllChar '&' "&amp;".data s.data))))

/-- The newline-to-line-break replacement applied to the escaped message
in the HTML part. -/
def nlToBr (s : String) : String :=
  String.mk (replaceAllChar '\n' "<br>".data s.data)

/-- Drops trailing whitespace characters. -/
def dropTrailingWs (l : List Char) : List Char :=
  (l.reverse.dropWhile Char.isWhitespace).reverse

/-- JavaScript String.trim: removes whitespace from both ends.  The
characters it ever meets here are spaces and newlines, on which the
JavaScript and Lean whitespace classes agree. -/
def jsTrim (s : String) : String :=
  String.mk (dropTrailingWs (s.data.dropWhile Char.isWhitespace))

/-- ContactFormData from the mailer module.  The optional phone field is
none when absent. -/
structure ContactFormData where
  email : String
  name : String
  message : String
  phone : Option String
deriving DecidableEq, Repr

/-- Truthiness of the optional phone value as the mailer template tests
it: absent or empty is falsy. -/
def strTruthy (p : Option String) : Bool :=
  match p with
  | some s => s != ""
  | none => false

/-- The message object handed to the SMTP transport by sendContactEmail
(the transport construction and network exchange are outside the model).
The from and to fields are named fromField and toField because from and
to are reserved in Lean. -/
structure MailMessage where
  fromField : String
  toField : String
  subject : String
  text : String
  html : String
deriving DecidableEq, Repr

/-- Embeds sendContactEmail: builds the message from the form data and
the origin configuration, with the template literals written out and the
final trim applied to the HTML part. -/
def sendContactEmail (data : ContactFormData) (originConfig : OriginConfig) : MailMessage :=
  { fromField := "\"" ++ data.name ++ "\" <" ++ originConfig.smtp.user ++ ">"
    toField := originConfig.toEmail
    subject := "[Contact|Kontakt] - " ++ originConfig.name ++ " - " ++ data.name
    text := "From: " ++ data.name ++ " <" ++ data.email ++ "> " ++
      (if strTruthy data.phone then "<" ++ data.phone.getD "" ++ ">" else "") ++
      "\n\n" ++ data.message
    html := jsTrim
      ("\n      <p><strong>From:</strong> " ++ escapeHtml data.name ++
       " &lt;" ++ escapeHtml data.email ++ " " ++
       (if strTruthy data.phone then "&lt;" ++ escapeHtml (data.phone.getD "") else "") ++
       "&gt;</p>\n      <hr>\n      <p>" ++
       nlToBr (escapeHtml data.message) ++ "</p>\n    ") }

/-! ## Dispatcher (the fetch handler from the server module) -/

/-- An incoming HTTP request as the handler observes it: method, URL
path, the Origin and X-Forwarded-For headers (none models an absent
header), the transport peer address when available, and the request body
as parsed JSON (none models a body on which req.json() throws). -/
structure Request where
  method : String
  path : String
  origin : Option String
  xForwardedFor : Option String
  peerAddr : Option String
  body : Option Json

/-- The rate-limit client key derivation: first comma-separated entry of
X-Forwarded-For, trimmed, else the peer address, else the literal string
unknown. -/
def clientKey (req : Request) : String :=
  match req.xForwardedFor with
  | some s => ((s.splitOn ",").headD "").trim
  | none =>
    match req.peerAddr with
    | some a => a
    | none => "unknown"

/-- An HTTP response: status, optional JSON body and headers. -/
structure Response where
  status : Nat
  body : Option Json
  headers : List (String × String)

/-- The json response helper: serializes the data with a Content-Type
header followed by the spread extra headers. -/
def jsonResp (data : Json) (status : Nat) (headers : List (String × String)) : Response :=
  { status := status
    body := some data
    headers := ("Content-Type", "application/json") :: headers }

/-- The observable outcome of one fetch call: the response, the
rate-limit map after the call, and the list of sendContactEmail
invocations made (argument pairs), in order. -/
structure DispatchResult where
  resp : Response
  rl : RLState
  sent : List (ContactFormData × OriginConfig)

/-- The narrowing the TypeScript type guard performs on a validated body:
the three string fields are read off, and the phone property becomes some
non-empty string exactly when the mailer template would treat it as
present (truthiness), which coincides with the guard on every body it
accepts. -/
def toContactFormData (v : Json) : ContactFormData :=
  { email := jsAsString (jsGet v "email")
    name := jsAsString (jsGet v "name")
    message := jsAsString (jsGet v "message")
    phone :=
      match jsGet v "phone" with
      | some (.str s) => some s
      | _ => none }

/-- Embeds the fetch handler.  The current time, the rate-limit map and
whether the SMTP dispatch would succeed (mailOk) are passed explicitly;
request-body JSON parsing is reflected in Request.body. -/
def fetch (cfg : ConfigStore) (now : Nat) (mailOk : Bool) (req : Request)
    (rl : RLState) : DispatchResult :=
  let cors := corsHeaders cfg req.origin
  if req.method = "OPTIONS" then
    { resp := { status := 204, body := none, headers := cors }, rl := rl, sent := [] }
  else
    let ip := clientKey req
    if req.path ≠ "/api/send" ∨ req.method ≠ "POST" then
      { resp := jsonResp (.obj [("error", .str "Not found")]) 404 cors
        rl := rl, sent := [] }
    else
      match getOriginConfig cfg req.origin with
      | none =>
        { resp := jsonResp (.obj [("error", .str "Forbidden")]) 403 cors
          rl := rl, sent := [] }
      | some originConfig =>
        let r := isRateLimited now rl ip
        if r.1 then
          { resp := jsonResp (.obj [("error", .str "Too many requests")]) 429 cors
            rl := r.2, sent := [] }
        else
          match req.body with
          | none =>
            { resp := jsonResp (.obj [("error", .str "Invalid JSON")]) 400 cors
              rl := r.2, sent := [] }
          | some body =>
            if ¬ (validateBody body = true) then
              { resp := jsonResp
                  (.obj [("error", .str "Invalid body. Required: email, name, message")])
                  400 cors
                rl := r.2, sent := [] }
            else
              let data := toContactFormData body
              if mailOk then
                { resp := jsonResp (.obj [("success", .bool true)]) 200 cors
                  rl := r.2, sent := [(data, originConfig)] }
              else
                { resp := jsonResp (.obj [("error", .str "Failed to send email")]) 500 cors
                  rl := r.2, sent := [(data, originConfig)] }

/-! ## Configuration loader (loadConfig from config.ts) -/

/-- JavaScript nullish coalescing v ?? d on a possibly-undefined value:
the default is taken exactly when the value is undefined or null. -/
def jsNullish (v : Option Json) (d : Json) : Json :=
  match v with
  | none => d
  | some .null => d
  | some x => x

/-- The per-origin record as loadConfig stores it.  Fields whose type the
loader never checks are kept as raw JSON values; name is none when the
property is absent (the loader stores it without any check). -/
structure LoadedOrigin where
  name : Option Json
  toEmail : String
  smtpHost : Json
  smtpPort : Json
  smtpSecure : Json
  smtpUser : Json
  smtpPass : Json

/-- Embeds the body of the per-origin loop of loadConfig: the toEmail,
smtp-object and smtp host/user/pass checks, then the record built with
the port and secure defaults.  Property access on a non-object origin
value yields undefined, hence a failed truthiness check, matching the
fail-fast outcome of the source on such entries. -/
def checkOrigin (origin : String) (v : Json) : Except String LoadedOrigin :=
  if !(jsTruthy (jsGet v "toEmail")) || !(jsIsString (jsGet v "toEmail")) then
    .error ("Missing or invalid toEmail for origin: " ++ origin)
  else if !(jsTruthy (jsGet v "smtp")) ||
      !(jsTypeofIsObject ((jsGet v "smtp").getD .null)) then
    .error ("Missing or invalid smtp config for origin: " ++ origin)
  else
    let smtp := (jsGet v "smtp").getD .null
    if !(jsTruthy (jsGet smtp "host")) || !(jsTruthy (jsGet smtp "user")) ||
        !(jsTruthy (jsGet smtp "pass")) then
      .error ("Missing required smtp fields (host, user, pass) for origin: " ++ origin)
    else
      .ok { name := jsGet v "name"
            toEmail := jsAsString (jsGet v "toEmail")
            smtpHost := (jsGet smtp "host").getD .null
            smtpPort := jsNullish (jsGet smtp "port") (.num 587)
            smtpSecure := jsNullish (jsGet smtp "secure") (.bool false)
            smtpUser := (jsGet smtp "user").getD .null
            smtpPass := (jsGet smtp "pass").getD .null }

/-- The Object.entries loop of loadConfig: checks each origin in order,
failing on the first bad one. -/
def loadOrigins : List (String × Json) → Except String (List (String × LoadedOrigin))
  | [] => .ok []
  | (k, v) :: rest =>
    match checkOrigin k v with
    | .error e => .error e
    | .ok lo =>
      match loadOrigins rest with
      | .error e => .error e
      | .ok tail => .ok ((k, lo) :: tail)

/-- Embeds loadConfig.  The input collapses the fallible prelude of the
source: none models a missing CONFIG_FILE variable, an unreadable file or
malformed JSON, each of which throws; some j is the parsed file content.
A parsed top-level object has pairwise distinct keys, so the stored list
is empty exactly when the object has no entries. -/
def loadConfig (input : Option Json) :
    Except String (List (String × LoadedOrigin)) :=
  match input with
  | none => .error "Failed to read or parse config file"
  | some (.obj fields) =>
    match loadOrigins fields with
    | .error e => .error e
    | .ok origins =>
      if origins.length = 0 then
        .error "Config file must contain at least one origin"
      else
        .ok origins
  | some _ => .error "Config file must be a JSON object"

/-! ## Theorems -/

/-- Updating the map and reading the same key back yields the new entry. -/
lemma rlGet_rlSet_self (s : RLState) (k : String) (v : RLEntry) :
    rlGet (rlSet s k v) k = some v := by
  induction s with
  | nil => simp [rlGet, rlSet, List.lookup]
  | cons hd tl ih =>
    obtain ⟨k', v'⟩ := hd
    by_cases h : k' = k
    · subst h
      simp [rlGet, rlSet, List.lookup]
    · have hb : (k == k') = false := by
        simp [beq_iff_eq]
        exact fun hk => h hk.symm
      simp only [rlSet, if_neg h]
      simpa [rlGet, List.lookup, hb] using ih

/-- While the stored entry is live, a run of calls is allowed exactly
until the incremented count passes the cap. -/
lemma runCalls_live_window (k : String) (ts : List Nat) :
    ∀ (s : RLState) (c R : Nat), rlGet s k = some ⟨c, R⟩ →
      (∀ t ∈ ts, t ≤ R) →
      runCalls k s ts =
        (List.range ts.length).map (fun i => decide (c + i + 1 ≤ RATE_LIMIT)) := by
  induction ts with
  | nil => intro s c R _ _; simp [runCalls]
  | cons t ts ih =>
    intro s c R h ht
    have htR : ¬ t > R := by
      have := ht t (by simp)
      omega
    simp only [runCalls, isRateLimited, h, if_neg htR]
    have hget : rlGet (rlSet s k ⟨c + 1, R⟩) k = some ⟨c + 1, R⟩ :=
      rlGet_rlSet_self s k _
    rw [ih _ (c + 1) R hget (fun t' ht' => ht t' (List.mem_cons_of_mem _ ht'))]
    rw [List.length_cons, List.range_succ_eq_map, List.map_cons, List.map_map]
    simp only [List.cons.injEq]
    constructor
    · rw [← decide_not, decide_eq_decide]
      simp only [RATE_LIMIT]
      omega
    · apply List.map_congr_left
      intro i _
      simp only [Function.comp]
      rw [decide_eq_decide]
      omega

/-- C2: for a fixed client key, the first call initializes the entry to
count 1 with a window one RATE_WINDOW_MS long and is allowed; a call on a
live entry increments the count and is allowed iff the incremented count
is at most the cap, so a run started on a fresh key is allowed on calls
one through five and refused on the sixth inside the window; a call
strictly after resetAt reinitializes the entry to count 1 and is
allowed. -/
theorem rateLimiter_fixed_window (k : String) (s : RLState) (t0 : Nat) (ts : List Nat)
    (h0 : rlGet s k = none) (hts : ∀ t ∈ ts, t < t0 + RATE_WINDOW_MS) :
    isRateLimited t0 s k = (false, rlSet s k ⟨1, t0 + RATE_WINDOW_MS⟩) ∧
    (∀ (s' : RLState) (c R now : Nat), rlGet s' k = some ⟨c, R⟩ → now < R →
      isRateLimited now s' k =
        (decide (RATE_LIMIT < c + 1), rlSet s' k ⟨c + 1, R⟩)) ∧
    runCalls k s (t0 :: ts) =
      (List.range (ts.length + 1)).map (fun i => decide (i + 1 ≤ RATE_LIMIT)) ∧
    (∀ (s' : RLState) (c R now : Nat), rlGet s' k = some ⟨c, R⟩ → R < now →
      isRateLimited now s' k = (false, rlSet s' k ⟨1, now + RATE_WINDOW_MS⟩)) := by
  refine ⟨by simp [isRateLimited, h0], ?_, ?_, ?_⟩
  · intro s' c R now h hlt
    have : ¬ now > R := by omega
    simp [isRateLimited, h, this, Nat.lt_iff_add_one_le]
  · simp only [runCalls, isRateLimited, h0]
    have hget : rlGet (rlSet s k ⟨1, t0 + RATE_WINDOW_MS⟩) k =
        some ⟨1, t0 + RATE_WINDOW_MS⟩ := rlGet_rlSet_self s k _
    rw [runCalls_live_window k ts _ 1 (t0 + RATE_WINDOW_MS) hget
      (fun t' ht' => Nat.le_of_lt (hts t' ht'))]
    rw [List.range_succ_eq_map, List.map_cons, List.map_map]
    simp only [List.cons.injEq]
    refine ⟨by decide, ?_⟩
    apply List.map_congr_left
    intro i _
    simp only [Function.comp]
    rw [decide_eq_decide]
    omega
  · intro s' c R now h hlt
    have : now > R := hlt
    simp [isRateLimited, h, this]

/-- C2 witness: on a fresh key, six calls inside one window are allowed
five times and then refused. -/
theorem rateLimiter_fixed_window_witness :
    runCalls "203.0.113.9" [] [0, 1, 2, 3, 4, 5] =
      [true, true, true, true, true, false] := by
  have h := (rateLimiter_fixed_window "203.0.113.9" [] 0 [1, 2, 3, 4, 5]
    rfl (by decide)).2.2.1
  rw [h]
  decide

/-- C8 counterexample: a check arriving exactly at the stored resetAt is
still treated as inside the window, incrementing the count, rather than
starting a fresh window as the claim states. -/
theorem rateLimiter_boundary_cex :
    isRateLimited 100 [("203.0.113.7", ⟨2, 100⟩)] "203.0.113.7" =
      (false, [("203.0.113.7", ⟨3, 100⟩)]) ∧
    ¬ isRateLimited 100 [("203.0.113.7", ⟨2, 100⟩)] "203.0.113.7" =
      (false, [("203.0.113.7", ⟨1, 60100⟩)]) := by
  decide

/-- C8 amended: the stored count strictly increases on each check made at
a time up to and including resetAt, and a check strictly past resetAt
resets the entry to count 1 and resetAt to now plus the window size. -/
theorem rateLimiter_count_monotone (s : RLState) (k : String) (e : RLEntry) (now : Nat)
    (h : rlGet s k = some e) :
    (now ≤ e.resetAt →
      rlGet (isRateLimited now s k).2 k = some ⟨e.count + 1, e.resetAt⟩) ∧
    (e.resetAt < now →
      isRateLimited now s k = (false, rlSet s k ⟨1, now + RATE_WINDOW_MS⟩)) := by
  constructor
  · intro hle
    have hng : ¬ now > e.resetAt := by omega
    simp only [isRateLimited, h, if_neg hng]
    exact rlGet_rlSet_self s k _
  · intro hgt
    have : now > e.resetAt := hgt
    simp [isRateLimited, h, this]

/-- C8 amended witness: at exactly resetAt the count advances from 2 to
3, and one millisecond past resetAt the entry is reinitialized. -/
theorem rateLimiter_count_monotone_witness :
    rlGet (isRateLimited 100 [("198.51.100.4", ⟨2, 100⟩)] "198.51.100.4").2
        "198.51.100.4" = some ⟨3, 100⟩ ∧
    isRateLimited 101 [("198.51.100.4", ⟨2, 100⟩)] "198.51.100.4" =
      (false, rlSet [("198.51.100.4", ⟨2, 100⟩)] "198.51.100.4" ⟨1, 60101⟩) :=
  ⟨(rateLimiter_count_monotone [("198.51.100.4", ⟨2, 100⟩)] "198.51.100.4"
      ⟨2, 100⟩ 100 rfl).1 (by decide),
   (rateLimiter_count_monotone [("198.51.100.4", ⟨2, 100⟩)] "198.51.100.4"
      ⟨2, 100⟩ 101 rfl).2 (by decide)⟩

/-- C10: on a live entry every check increments the stored count, allowed
or not; the check is refused exactly when the incremented count passes
the cap, so once the count has reached the cap every further in-window
check is refused while the count keeps growing. -/
theorem rateLimiter_no_refund (s : RLState) (k : String) (e : RLEntry) (now : Nat)
    (h : rlGet s k = some e) (hw : now ≤ e.resetAt) :
    rlGet (isRateLimited now s k).2 k = some ⟨e.count + 1, e.resetAt⟩ ∧
    (isRateLimited now s k).1 = decide (RATE_LIMIT < e.count + 1) ∧
    (RATE_LIMIT ≤ e.count → (isRateLimited now s k).1 = true) := by
  have hng : ¬ now > e.resetAt := by omega
  refine ⟨?_, ?_, ?_⟩
  · simp only [isRateLimited, h, if_neg hng]
    exact rlGet_rlSet_self s k _
  · simp only [isRateLimited, h]
    rw [if_neg hng]
  · intro hcap
    simp only [isRateLimited, h]
    rw [if_neg hng]
    simp only [RATE_LIMIT] at hcap ⊢
    rw [decide_eq_true_eq]
    omega

/-- C10 witness: a rejected check on a saturated entry still pushes the
count from 7 to 8 and is refused. -/
theorem rateLimiter_no_refund_witness :
    rlGet (isRateLimited 50 [("192.0.2.8", ⟨7, 100⟩)] "192.0.2.8").2
        "192.0.2.8" = some ⟨8, 100⟩ ∧
    (isRateLimited 50 [("192.0.2.8", ⟨7, 100⟩)] "192.0.2.8").1 = true :=
  ⟨(rateLimiter_no_refund [("192.0.2.8", ⟨7, 100⟩)] "192.0.2.8"
      ⟨7, 100⟩ 50 rfl (by decide)).1,
   (rateLimiter_no_refund [("192.0.2.8", ⟨7, 100⟩)] "192.0.2.8"
      ⟨7, 100⟩ 50 rfl (by decide)).2.2 (by decide)⟩

/-- A possibly-undefined value passes the string type test exactly when
it is a defined JSON string. -/
lemma jsIsString_iff (v : Option Json) :
    jsIsString v = true ↔ ∃ s, v = some (Json.str s) := by
  cases v with
  | none => simp [jsIsString]
  | some j => cases j <;> simp [jsIsString]

/-- On an object the early typeof and null tests pass, leaving the main
conjunction of validateBody. -/
lemma validateBody_obj (fields : List (String × Json)) :
    validateBody (Json.obj fields) =
      (jsIsString (jsGet (Json.obj fields) "email") &&
       jsIsString (jsGet (Json.obj fields) "name") &&
       jsIsString (jsGet (Json.obj fields) "message") &&
       ((jsTruthy (jsGet (Json.obj fields) "phone") &&
         jsIsString (jsGet (Json.obj fields) "phone") &&
         decide ((jsAsString (jsGet (Json.obj fields) "phone")).length > 0)) ||
        ! jsTruthy (jsGet (Json.obj fields) "phone")) &&
       strIncludes (jsAsString (jsGet (Json.obj fields) "email")) '@' &&
       decide ((jsAsString (jsGet (Json.obj fields) "name")).length > 0) &&
       decide ((jsAsString (jsGet (Json.obj fields) "message")).length > 0)) := by
  simp [validateBody, jsTypeofIsObject, jsIsNull]

/-- A non-empty string has positive length. -/
lemma str_length_pos (s : String) (h : s ≠ "") : 0 < s.length := by
  cases s with
  | mk data =>
    cases data with
    | nil => exact absurd rfl h
    | cons c cs => simp [String.length]

/-- C3: a value the validator accepts is a non-null, non-array object
whose email, name and message properties are strings, with an at-sign in
the email and non-empty name and message; the canonical valid submission
is accepted, and an object with a missing email, an empty name or an
at-sign-free email is rejected. -/
theorem validator_characterization :
    (∀ v : Json, validateBody v = true →
      (∃ fields, v = Json.obj fields) ∧
      (∃ e, jsGet v "email" = some (Json.str e) ∧ strIncludes e '@' = true) ∧
      (∃ n, jsGet v "name" = some (Json.str n) ∧ n.length > 0) ∧
      (∃ m, jsGet v "message" = some (Json.str m) ∧ m.length > 0)) ∧
    validateBody (Json.obj [("email", Json.str "a@b.com"), ("name", Json.str "X"),
      ("message", Json.str "hi")]) = true ∧
    (∀ fields, jsGet (Json.obj fields) "email" = none →
      validateBody (Json.obj fields) = false) ∧
    (∀ fields, jsGet (Json.obj fields) "name" = some (Json.str "") →
      validateBody (Json.obj fields) = false) ∧
    (∀ fields e, jsGet (Json.obj fields) "email" = some (Json.str e) →
      strIncludes e '@' = false → validateBody (Json.obj fields) = false) := by
  refine ⟨?_, by decide, ?_, ?_, ?_⟩
  · intro v h
    cases v with
    | obj fields =>
      rw [validateBody_obj] at h
      simp only [Bool.and_eq_true, decide_eq_true_eq] at h
      obtain ⟨⟨⟨⟨⟨⟨he, hn⟩, hm⟩, _⟩, hea⟩, hn0⟩, hm0⟩ := h
      obtain ⟨e, he'⟩ := (jsIsString_iff _).mp he
      obtain ⟨n, hn'⟩ := (jsIsString_iff _).mp hn
      obtain ⟨m, hm'⟩ := (jsIsString_iff _).mp hm
      rw [he'] at hea
      rw [hn'] at hn0
      rw [hm'] at hm0
      simp only [jsAsString] at hea hn0 hm0
      exact ⟨⟨fields, rfl⟩, ⟨e, he', hea⟩, ⟨n, hn', hn0⟩, ⟨m, hm', hm0⟩⟩
    | null => simp [validateBody, jsTypeofIsObject, jsIsNull] at h
    | bool b => simp [validateBody, jsTypeofIsObject, jsIsNull] at h
    | num n => simp [validateBody, jsTypeofIsObject, jsIsNull] at h
    | str s => simp [validateBody, jsTypeofIsObject, jsIsNull] at h
    | arr elems =>
      simp [validateBody, jsTypeofIsObject, jsIsNull, jsGet, jsIsString] at h
  · intro fields h
    simp [validateBody, jsTypeofIsObject, jsIsNull, h, jsIsString]
  · intro fields h
    simp [validateBody, jsTypeofIsObject, jsIsNull, h, jsAsString]
  · intro fields e he hinc
    simp [validateBody, jsTypeofIsObject, jsIsNull, he, jsAsString, hinc]

/-- C3 witness: concrete accepted and rejected bodies. -/
theorem validator_characterization_witness :
    validateBody (Json.obj [("email", Json.str "a@b.com"), ("name", Json.str "X"),
      ("message", Json.str "hi")]) = true ∧
    validateBody (Json.obj [("name", Json.str "X"),
      ("message", Json.str "hi")]) = false ∧
    validateBody (Json.obj [("email", Json.str "a@b.com"), ("name", Json.str ""),
      ("message", Json.str "hi")]) = false ∧
    validateBody (Json.obj [("email", Json.str "ab.com"), ("name", Json.str "X"),
      ("message", Json.str "hi")]) = false ∧
    (∃ e, jsGet (Json.obj [("email", Json.str "a@b.com"), ("name", Json.str "X"),
      ("message", Json.str "hi")]) "email" = some (Json.str e) ∧
      strIncludes e '@' = true) :=
  ⟨validator_characterization.2.1,
   validator_characterization.2.2.1 _ rfl,
   validator_characterization.2.2.2.1 _ rfl,
   validator_characterization.2.2.2.2 _ "ab.com" rfl rfl,
   (validator_characterization.1 _ validator_characterization.2.1).2.1⟩

/-- C4 counterexample: the validator accepts an otherwise-valid body
whose phone property is the empty string, where the claim requires
rejection; the empty string is falsy, so the not-phone disjunct of the
phone clause swallows it before the length check can run. -/
theorem validator_phone_empty_cex :
    ¬ validateBody (Json.obj [("email", Json.str "a@b.com"), ("name", Json.str "X"),
      ("message", Json.str "hi"), ("phone", Json.str "")]) = false := by
  decide

/-- C4 amended: with the other fields valid, an absent phone is accepted,
an empty-string phone is also accepted (falsy, treated as absent), and a
non-empty string phone is accepted. -/
theorem validator_phone_rules (fields : List (String × Json)) (e n m : String)
    (he : jsGet (Json.obj fields) "email" = some (Json.str e))
    (hea : strIncludes e '@' = true)
    (hn : jsGet (Json.obj fields) "name" = some (Json.str n)) (hn0 : n ≠ "")
    (hm : jsGet (Json.obj fields) "message" = some (Json.str m)) (hm0 : m ≠ "") :
    (jsGet (Json.obj fields) "phone" = none →
      validateBody (Json.obj fields) = true) ∧
    (jsGet (Json.obj fields) "phone" = some (Json.str "") →
      validateBody (Json.obj fields) = true) ∧
    (∀ p, jsGet (Json.obj fields) "phone" = some (Json.str p) → p ≠ "" →
      validateBody (Json.obj fields) = true) := by
  refine ⟨fun hp => ?_, fun hp => ?_, fun p hp hp0 => ?_⟩
  · simp [validateBody, jsTypeofIsObject, jsIsNull, he, hn, hm, hp,
      jsAsString, jsIsString, jsTruthy, hea]
    exact ⟨str_length_pos n hn0, str_length_pos m hm0⟩
  · simp [validateBody, jsTypeofIsObject, jsIsNull, he, hn, hm, hp,
      jsAsString, jsIsString, jsTruthy, hea]
    exact ⟨str_length_pos n hn0, str_length_pos m hm0⟩
  · simp [validateBody, jsTypeofIsObject, jsIsNull, he, hn, hm, hp,
      jsAsString, jsIsString, jsTruthy, hea, hp0]
    exact ⟨⟨str_length_pos p hp0, str_length_pos n hn0⟩, str_length_pos m hm0⟩

/-- C4 amended witness: the three phone shapes on a concrete body. -/
theorem validator_phone_rules_witness :
    validateBody (Json.obj [("email", Json.str "a@b.com"), ("name", Json.str "X"),
      ("message", Json.str "hi")]) = true ∧
    validateBody (Json.obj [("email", Json.str "a@b.com"), ("name", Json.str "X"),
      ("message", Json.str "hi"), ("phone", Json.str "")]) = true ∧
    validateBody (Json.obj [("email", Json.str "a@b.com"), ("name", Json.str "X"),
      ("message", Json.str "hi"), ("phone", Json.str "123")]) = true :=
  ⟨(validator_phone_rules [("email", Json.str "a@b.com"), ("name", Json.str "X"),
      ("message", Json.str "hi")] "a@b.com" "X" "hi" rfl rfl rfl (by decide) rfl
      (by decide)).1 rfl,
   (validator_phone_rules [("email", Json.str "a@b.com"), ("name", Json.str "X"),
      ("message", Json.str "hi"), ("phone", Json.str "")] "a@b.com" "X" "hi" rfl rfl
      rfl (by decide) rfl (by decide)).2.1 rfl,
   (validator_phone_rules [("email", Json.str "a@b.com"), ("name", Json.str "X"),
      ("message", Json.str "hi"), ("phone", Json.str "123")] "a@b.com" "X" "hi" rfl
      rfl rfl (by decide) rfl (by decide)).2.2 "123" rfl (by decide)⟩

/-- A single-character global replacement leaves a string without that
character unchanged. -/
lemma replaceAllChar_id (c : Char) (rep : List Char) (l : List Char)
    (h : ∀ x ∈ l, x ≠ c) : replaceAllChar c rep l = l := by
  induction l with
  | nil => rfl
  | cons x xs ih =>
    have hx : x ≠ c := h x (by simp)
    simp [replaceAllChar, hx, ih (fun y hy => h y (List.mem_cons_of_mem _ hy))]

/-- C6: escapeHtml is the identity, hence idempotent, on strings free of
the four escaped characters, and escapes the script tag correctly. -/
theorem escapeHtml_id_on_clean :
    (∀ s : String,
      (∀ ch ∈ s.data, ch ≠ '&' ∧ ch ≠ '<' ∧ ch ≠ '>' ∧ ch ≠ '"') →
      escapeHtml s = s ∧ escapeHtml (escapeHtml s) = escapeHtml s) ∧
    escapeHtml "<script>" = "&lt;script&gt;" := by
  have hid : ∀ s : String,
      (∀ ch ∈ s.data, ch ≠ '&' ∧ ch ≠ '<' ∧ ch ≠ '>' ∧ ch ≠ '"') →
      escapeHtml s = s := by
    intro s h
    unfold escapeHtml
    rw [replaceAllChar_id '&' _ _ (fun x hx => (h x hx).1),
        replaceAllChar_id '<' _ _ (fun x hx => (h x hx).2.1),
        replaceAllChar_id '>' _ _ (fun x hx => (h x hx).2.2.1),
        replaceAllChar_id '"' _ _ (fun x hx => (h x hx).2.2.2)]
  exact ⟨fun s h => ⟨hid s h, by rw [hid s h]; exact hid s h⟩, by decide⟩

/-- C6 witness: a clean string is fixed by escapeHtml. -/
theorem escapeHtml_id_on_clean_witness :
    escapeHtml "hello" = "hello" :=
  (escapeHtml_id_on_clean.1 "hello" (by decide)).1

/-- Dropping leading whitespace from the framed HTML template starts at
the first paragraph tag. -/
lemma dropWhile_ws_framed (l : List Char) :
    ("\n      <p><strong>From:</strong> ".data ++ l).dropWhile Char.isWhitespace =
      "<p><strong>From:</strong> ".data ++ l := by
  have h : "\n      <p><strong>From:</strong> ".data =
      "\n      ".data ++ "<p><strong>From:</strong> ".data := by decide
  rw [h, List.append_assoc, List.dropWhile_append_of_pos (by decide)]
  rw [List.dropWhile_append]
  have h2 : ("<p><strong>From:</strong> ".data.dropWhile Char.isWhitespace) =
      "<p><strong>From:</strong> ".data := by decide
  rw [h2]
  simp

/-- Dropping trailing whitespace from the framed HTML template stops at
the closing paragraph tag. -/
lemma dropTrailingWs_framed (l : List Char) :
    dropTrailingWs (l ++ "</p>\n    ".data) = l ++ "</p>".data := by
  unfold dropTrailingWs
  rw [List.reverse_append]
  have h : "</p>\n    ".data.reverse =
      "\n    ".data.reverse ++ "</p>".data.reverse := by decide
  rw [h, List.append_assoc, List.dropWhile_append_of_pos (by decide)]
  rw [List.dropWhile_append]
  have h2 : ("</p>".data.reverse.dropWhile Char.isWhitespace) =
      "</p>".data.reverse := by decide
  rw [h2]
  simp

lemma data_mk (l : List Char) : (String.mk l).data = l := rfl

lemma jsTrim_framed (s : String) :
    jsTrim ("\n      <p><strong>From:</strong> " ++ s ++ "</p>\n    ") =
      "<p><strong>From:</strong> " ++ s ++ "</p>" := by
  apply String.ext
  unfold jsTrim
  rw [data_mk]
  rw [String.data_append, String.data_append]
  rw [List.append_assoc]
  rw [dropWhile_ws_framed]
  rw [← List.append_assoc]
  rw [dropTrailingWs_framed]
  rw [String.data_append, String.data_append]


/-- C7: the message built by sendContactEmail displays the visitor name
in from while using the configured SMTP user as the address, goes to the
configured recipient, embeds the origin display name in the subject,
carries a plain-text part that keeps the raw message (newlines included)
and an HTML part in which every visitor field is HTML-escaped separately
and newlines become br tags. -/
theorem mailer_message_shape (data : ContactFormData) (cfg : OriginConfig) :
    (sendContactEmail data cfg).fromField =
        "\"" ++ data.name ++ "\" <" ++ cfg.smtp.user ++ ">" ∧
    (sendContactEmail data cfg).toField = cfg.toEmail ∧
    (sendContactEmail data cfg).subject =
        "[Contact|Kontakt] - " ++ cfg.name ++ " - " ++ data.name ∧
    (sendContactEmail data cfg).text =
        "From: " ++ data.name ++ " <" ++ data.email ++ "> " ++
          (if strTruthy data.phone then "<" ++ data.phone.getD "" ++ ">" else "") ++
          "\n\n" ++ data.message ∧
    (sendContactEmail data cfg).html =
        "<p><strong>From:</strong> " ++ escapeHtml data.name ++ " &lt;" ++
          escapeHtml data.email ++ " " ++
          (if strTruthy data.phone then "&lt;" ++ escapeHtml (data.phone.getD "")
           else "") ++
          "&gt;</p>\n      <hr>\n      <p>" ++ nlToBr (escapeHtml data.message) ++
          "</p>" := by
  have key : ∀ e1 e2 ph e3 : String,
      jsTrim ("\n      <p><strong>From:</strong> " ++ e1 ++ " &lt;" ++ e2 ++ " " ++
        ph ++ "&gt;</p>\n      <hr>\n      <p>" ++ e3 ++ "</p>\n    ") =
      "<p><strong>From:</strong> " ++ e1 ++ " &lt;" ++ e2 ++ " " ++ ph ++
        "&gt;</p>\n      <hr>\n      <p>" ++ e3 ++ "</p>" := by
    intro e1 e2 ph e3
    rw [show ("\n      <p><strong>From:</strong> " ++ e1 ++ " &lt;" ++ e2 ++ " " ++
        ph ++ "&gt;</p>\n      <hr>\n      <p>" ++ e3 ++ "</p>\n    " : String) =
        "\n      <p><strong>From:</strong> " ++
          (e1 ++ " &lt;" ++ e2 ++ " " ++ ph ++
            "&gt;</p>\n      <hr>\n      <p>" ++ e3) ++
          "</p>\n    " from by simp [String.append_assoc]]
    rw [jsTrim_framed]
    simp [String.append_assoc]
  exact ⟨rfl, rfl, rfl, rfl, key _ _ _ _⟩


/-- A bad entry anywhere in the list makes the origin loop fail. -/
lemma loadOrigins_error_of_bad (fields : List (String × Json)) (k : String)
    (v : Json) (msg0 : String) (hmem : (k, v) ∈ fields)
    (hbad : checkOrigin k v = .error msg0) :
    ∃ msg, loadOrigins fields = .error msg := by
  induction fields with
  | nil => simp at hmem
  | cons hd tl ih =>
    obtain ⟨k0, v0⟩ := hd
    rcases List.mem_cons.mp hmem with heq | hmem2
    · injection heq with h1 h2
      subst h1
      subst h2
      exact ⟨msg0, by simp [loadOrigins, hbad]⟩
    · cases cho : checkOrigin k0 v0 with
      | error e => exact ⟨e, by simp [loadOrigins, cho]⟩
      | ok lo =>
        obtain ⟨msg, hmsg⟩ := ih hmem2
        exact ⟨msg, by simp [loadOrigins, cho, hmsg]⟩

/-- Every stored origin of a successful loop run comes from a successful
per-origin check of a corresponding input entry. -/
lemma loadOrigins_ok_members (fields : List (String × Json))
    (m : List (String × LoadedOrigin)) (h : loadOrigins fields = .ok m) :
    ∀ p ∈ m, ∃ v, (p.1, v) ∈ fields ∧ checkOrigin p.1 v = .ok p.2 := by
  induction fields generalizing m with
  | nil =>
    simp [loadOrigins] at h
    subst h
    intro p hp
    simp at hp
  | cons hd tl ih =>
    obtain ⟨k0, v0⟩ := hd
    cases cho : checkOrigin k0 v0 with
    | error e => simp [loadOrigins, cho] at h
    | ok lo =>
      cases cht : loadOrigins tl with
      | error e => simp [loadOrigins, cho, cht] at h
      | ok tail =>
        simp [loadOrigins, cho, cht] at h
        subst h
        intro p hp
        rcases List.mem_cons.mp hp with heq | hp2
        · subst heq
          exact ⟨v0, by simp, cho⟩
        · obtain ⟨v, hv1, hv2⟩ := ih tail cht p hp2
          exact ⟨v, List.mem_cons_of_mem _ hv1, hv2⟩


/-- A successful per-origin check pins down the stored record and forces
every guarded field to be truthy. -/
lemma checkOrigin_ok_shape (k : String) (v : Json) (lo : LoadedOrigin)
    (h : checkOrigin k v = .ok lo) :
    jsTruthy (jsGet v "toEmail") = true ∧ jsIsString (jsGet v "toEmail") = true ∧
    jsTruthy (jsGet v "smtp") = true ∧
    jsTruthy (jsGet ((jsGet v "smtp").getD .null) "host") = true ∧
    jsTruthy (jsGet ((jsGet v "smtp").getD .null) "user") = true ∧
    jsTruthy (jsGet ((jsGet v "smtp").getD .null) "pass") = true ∧
    lo = { name := jsGet v "name"
           toEmail := jsAsString (jsGet v "toEmail")
           smtpHost := (jsGet ((jsGet v "smtp").getD .null) "host").getD .null
           smtpPort := jsNullish (jsGet ((jsGet v "smtp").getD .null) "port")
             (.num 587)
           smtpSecure := jsNullish (jsGet ((jsGet v "smtp").getD .null) "secure")
             (.bool false)
           smtpUser := (jsGet ((jsGet v "smtp").getD .null) "user").getD .null
           smtpPass := (jsGet ((jsGet v "smtp").getD .null) "pass").getD .null } := by
  cases hc1 : (!(jsTruthy (jsGet v "toEmail")) || !(jsIsString (jsGet v "toEmail"))) with
  | true =>
    simp only [checkOrigin, hc1] at h
    simp at h
  | false =>
    cases hc2 : (!(jsTruthy (jsGet v "smtp")) ||
        !(jsTypeofIsObject ((jsGet v "smtp").getD .null))) with
    | true =>
      simp only [checkOrigin, hc1, hc2] at h
      simp at h
    | false =>
      cases hc3 : (!(jsTruthy (jsGet ((jsGet v "smtp").getD .null) "host")) ||
          !(jsTruthy (jsGet ((jsGet v "smtp").getD .null) "user")) ||
          !(jsTruthy (jsGet ((jsGet v "smtp").getD .null) "pass"))) with
      | true =>
        simp only [checkOrigin, hc1, hc2, hc3] at h
        simp at h
      | false =>
        simp only [checkOrigin, hc1, hc2, hc3, if_false] at h
        simp only [Bool.or_eq_false_iff, Bool.not_eq_false'] at hc1 hc2 hc3
        simp at h
        exact ⟨hc1.1, hc1.2, hc2.1, hc3.1.1, hc3.1.2, hc3.2, h.symm⟩


/-- C9 counterexample: a config whose only origin has no name field loads
successfully with the port and secure defaults applied, although the
claim requires the load to fail; the loader never validates name. -/
theorem loadConfig_missing_name_cex :
    loadConfig (some (Json.obj [("https://a.example", Json.obj
      [("toEmail", Json.str "x@y.example"),
       ("smtp", Json.obj [("host", Json.str "smtp.example"),
         ("user", Json.str "u"), ("pass", Json.str "p")])])])) =
    Except.ok [("https://a.example",
      { name := none, toEmail := "x@y.example",
        smtpHost := Json.str "smtp.example", smtpPort := Json.num 587,
        smtpSecure := Json.bool false, smtpUser := Json.str "u",
        smtpPass := Json.str "p" })] := rfl

/-- C9 amended: the loader fails fast when the source is unreadable or
malformed, when the parsed value is not an object, when there are zero
origins, or when any origin fails its checks (missing or non-string
toEmail, missing smtp object, falsy smtp host, user or pass); the name
field is not validated.  On success every stored origin stems from a
successful check, with port defaulting to 587 and secure to false when
absent. -/
theorem loadConfig_fail_fast :
    (∃ msg, loadConfig none = Except.error msg) ∧
    (∀ j : Json, (∀ fields, j ≠ Json.obj fields) →
      ∃ msg, loadConfig (some j) = Except.error msg) ∧
    loadConfig (some (Json.obj [])) =
      Except.error "Config file must contain at least one origin" ∧
    (∀ fields k v msg0, (k, v) ∈ fields → checkOrigin k v = Except.error msg0 →
      ∃ msg, loadConfig (some (Json.obj fields)) = Except.error msg) ∧
    (∀ k v, jsTruthy (jsGet v "toEmail") = false ∨
        jsIsString (jsGet v "toEmail") = false →
      ∃ msg, checkOrigin k v = Except.error msg) ∧
    (∀ k v, jsTruthy (jsGet v "smtp") = false →
      ∃ msg, checkOrigin k v = Except.error msg) ∧
    (∀ k v s, jsGet v "smtp" = some s →
      jsTruthy (jsGet s "host") = false ∨ jsTruthy (jsGet s "user") = false ∨
        jsTruthy (jsGet s "pass") = false →
      ∃ msg, checkOrigin k v = Except.error msg) ∧
    (∀ fields m, loadConfig (some (Json.obj fields)) = Except.ok m →
      ∀ p ∈ m, ∃ v, (p.1, v) ∈ fields ∧ checkOrigin p.1 v = Except.ok p.2) ∧
    (∀ k v lo s, checkOrigin k v = Except.ok lo → jsGet v "smtp" = some s →
      (jsGet s "port" = none → lo.smtpPort = Json.num 587) ∧
      (jsGet s "secure" = none → lo.smtpSecure = Json.bool false)) := by
  refine ⟨⟨_, rfl⟩, ?_, rfl, ?_, ?_, ?_, ?_, ?_, ?_⟩
  · intro j hne
    cases j with
    | obj fields => exact absurd rfl (hne fields)
    | null => exact ⟨_, rfl⟩
    | bool b => exact ⟨_, rfl⟩
    | num n => exact ⟨_, rfl⟩
    | str s => exact ⟨_, rfl⟩
    | arr elems => exact ⟨_, rfl⟩
  · intro fields k v msg0 hmem hbad
    obtain ⟨msg, hmsg⟩ := loadOrigins_error_of_bad fields k v msg0 hmem hbad
    exact ⟨msg, by simp [loadConfig, hmsg]⟩
  · intro k v hbad
    cases hck : checkOrigin k v with
    | error e => exact ⟨e, rfl⟩
    | ok lo =>
      obtain ⟨h1, h2, _⟩ := checkOrigin_ok_shape k v lo hck
      rcases hbad with hb | hb
      · rw [h1] at hb
        cases hb
      · rw [h2] at hb
        cases hb
  · intro k v hbad
    cases hck : checkOrigin k v with
    | error e => exact ⟨e, rfl⟩
    | ok lo =>
      obtain ⟨_, _, h3, _⟩ := checkOrigin_ok_shape k v lo hck
      rw [h3] at hbad
      cases hbad
  · intro k v s hs hbad
    cases hck : checkOrigin k v with
    | error e => exact ⟨e, rfl⟩
    | ok lo =>
      obtain ⟨_, _, _, h4, h5, h6, _⟩ := checkOrigin_ok_shape k v lo hck
      rw [hs] at h4 h5 h6
      simp only [Option.getD_some] at h4 h5 h6
      rcases hbad with hb | hb | hb
      · rw [h4] at hb
        cases hb
      · rw [h5] at hb
        cases hb
      · rw [h6] at hb
        cases hb
  · intro fields m h
    cases hlo : loadOrigins fields with
    | error e => simp [loadConfig, hlo] at h
    | ok l =>
      simp only [loadConfig, hlo] at h
      by_cases hlen : l.length = 0
      · simp [hlen] at h
      · simp [hlen] at h
        subst h
        exact loadOrigins_ok_members fields l hlo
  · intro k v lo s hok hs
    obtain ⟨_, _, _, _, _, _, hlo⟩ := checkOrigin_ok_shape k v lo hok
    rw [hs] at hlo
    simp only [Option.getD_some] at hlo
    subst hlo
    refine ⟨fun hport => ?_, fun hsec => ?_⟩
    · simp [jsNullish, hport]
    · simp [jsNullish, hsec]


/-- C9 amended witness: concrete failing and succeeding loads. -/
theorem loadConfig_fail_fast_witness :
    (∃ msg, loadConfig (some Json.null) = Except.error msg) ∧
    (∃ msg, loadConfig (some (Json.obj [("o", Json.obj [])])) =
      Except.error msg) ∧
    (∃ msg, checkOrigin "o" (Json.obj []) = Except.error msg) ∧
    ({ name := none, toEmail := "x@y.example", smtpHost := Json.str "h",
       smtpPort := Json.num 587, smtpSecure := Json.bool false,
       smtpUser := Json.str "u",
       smtpPass := Json.str "p" } : LoadedOrigin).smtpPort = Json.num 587 :=
  ⟨loadConfig_fail_fast.2.1 Json.null (fun fields h => Json.noConfusion h),
   loadConfig_fail_fast.2.2.2.1 [("o", Json.obj [])] "o" (Json.obj [])
     "Missing or invalid toEmail for origin: o" (by simp) rfl,
   loadConfig_fail_fast.2.2.2.2.1 "o" (Json.obj []) (Or.inl rfl),
   (loadConfig_fail_fast.2.2.2.2.2.2.2.2 "o"
     (Json.obj [("toEmail", Json.str "x@y.example"),
       ("smtp", Json.obj [("host", Json.str "h"), ("user", Json.str "u"),
         ("pass", Json.str "p")])])
     { name := none, toEmail := "x@y.example", smtpHost := Json.str "h",
       smtpPort := Json.num 587, smtpSecure := Json.bool false,
       smtpUser := Json.str "u", smtpPass := Json.str "p" }
     (Json.obj [("host", Json.str "h"), ("user", Json.str "u"),
       ("pass", Json.str "p")]) rfl rfl).1 rfl⟩


/-- C1: on a POST to the send path, an unresolvable origin yields 403
with no mail dispatch and an untouched rate-limit map (the origin check
runs before the rate-limit check); a rate-limited client yields 429 with
no mail dispatch; and a 200 response carries exactly one mail dispatch,
invoked with the configuration resolved from the request origin. -/
theorem dispatcher_gate_order (cfg : ConfigStore) (now : Nat) (mailOk : Bool)
    (req : Request) (rl : RLState)
    (hm : req.method = "POST") (hp : req.path = "/api/send") :
    (getOriginConfig cfg req.origin = none →
      (fetch cfg now mailOk req rl).resp.status = 403 ∧
      (fetch cfg now mailOk req rl).sent = [] ∧
      (fetch cfg now mailOk req rl).rl = rl) ∧
    (∀ oc, getOriginConfig cfg req.origin = some oc →
      (isRateLimited now rl (clientKey req)).1 = true →
      (fetch cfg now mailOk req rl).resp.status = 429 ∧
      (fetch cfg now mailOk req rl).sent = []) ∧
    ((fetch cfg now mailOk req rl).resp.status = 200 →
      ∃ oc d0, getOriginConfig cfg req.origin = some oc ∧
        (fetch cfg now mailOk req rl).sent = [(d0, oc)]) := by
  refine ⟨?_, ?_, ?_⟩
  · intro h0
    simp [fetch, hm, hp, h0, jsonResp]
  · intro oc hoc hlim
    simp [fetch, hm, hp, hoc, hlim, jsonResp]
  · intro h200
    rcases hoc : getOriginConfig cfg req.origin with _ | oc
    · exfalso
      simp [fetch, hm, hp, hoc, jsonResp] at h200
    · cases hlim : (isRateLimited now rl (clientKey req)).1 with
      | true =>
        exfalso
        simp [fetch, hm, hp, hoc, hlim, jsonResp] at h200
      | false =>
        rcases hb : req.body with _ | body
        · exfalso
          simp [fetch, hm, hp, hoc, hlim, hb, jsonResp] at h200
        · cases hv : validateBody body with
          | false =>
            exfalso
            simp [fetch, hm, hp, hoc, hlim, hb, hv, jsonResp] at h200
          | true =>
            cases mailOk with
            | false =>
              exfalso
              simp [fetch, hm, hp, hoc, hlim, hb, hv, jsonResp] at h200
            | true =>
              exact ⟨oc, toContactFormData body, rfl,
                by simp [fetch, hm, hp, hoc, hlim, hb, hv, jsonResp]⟩

/-- C1 witness: a concrete unknown-origin request is refused with 403 and
leaves the map alone; a concrete saturated client gets 429 with no
dispatch; a concrete valid request yields 200 with one dispatch. -/
theorem dispatcher_gate_order_witness :
    ((fetch [("https://a.example",
        ⟨"A Site", "to@a.example", ⟨"smtp.a", 587, false, "u@a", "pw"⟩⟩)] 50 true
        ⟨"POST", "/api/send", some "https://evil.example", none,
          some "9.9.9.9", none⟩ []).resp.status = 403 ∧
      (fetch [("https://a.example",
        ⟨"A Site", "to@a.example", ⟨"smtp.a", 587, false, "u@a", "pw"⟩⟩)] 50 true
        ⟨"POST", "/api/send", some "https://evil.example", none,
          some "9.9.9.9", none⟩ []).sent = [] ∧
      (fetch [("https://a.example",
        ⟨"A Site", "to@a.example", ⟨"smtp.a", 587, false, "u@a", "pw"⟩⟩)] 50 true
        ⟨"POST", "/api/send", some "https://evil.example", none,
          some "9.9.9.9", none⟩ []).rl = []) ∧
    ((fetch [("https://a.example",
        ⟨"A Site", "to@a.example", ⟨"smtp.a", 587, false, "u@a", "pw"⟩⟩)] 50 true
        ⟨"POST", "/api/send", some "https://a.example", none,
          some "9.9.9.9", none⟩
        [("9.9.9.9", ⟨5, 1000⟩)]).resp.status = 429 ∧
      (fetch [("https://a.example",
        ⟨"A Site", "to@a.example", ⟨"smtp.a", 587, false, "u@a", "pw"⟩⟩)] 50 true
        ⟨"POST", "/api/send", some "https://a.example", none,
          some "9.9.9.9", none⟩
        [("9.9.9.9", ⟨5, 1000⟩)]).sent = []) ∧
    (∃ oc d0, getOriginConfig [("https://a.example",
        ⟨"A Site", "to@a.example", ⟨"smtp.a", 587, false, "u@a", "pw"⟩⟩)]
        (some "https://a.example") = some oc ∧
      (fetch [("https://a.example",
        ⟨"A Site", "to@a.example", ⟨"smtp.a", 587, false, "u@a", "pw"⟩⟩)] 50 true
        ⟨"POST", "/api/send", some "https://a.example", none, some "9.9.9.9",
          some (Json.obj [("email", Json.str "v@x.example"),
            ("name", Json.str "Vis"), ("message", Json.str "hi")])⟩
        []).sent = [(d0, oc)]) :=
  ⟨(dispatcher_gate_order _ 50 true
      ⟨"POST", "/api/send", some "https://evil.example", none,
        some "9.9.9.9", none⟩ [] rfl rfl).1 rfl,
   (dispatcher_gate_order _ 50 true
      ⟨"POST", "/api/send", some "https://a.example", none,
        some "9.9.9.9", none⟩ [("9.9.9.9", ⟨5, 1000⟩)] rfl rfl).2.1
      ⟨"A Site", "to@a.example", ⟨"smtp.a", 587, false, "u@a", "pw"⟩⟩ rfl rfl,
   (dispatcher_gate_order _ 50 true
      ⟨"POST", "/api/send", some "https://a.example", none, some "9.9.9.9",
        some (Json.obj [("email", Json.str "v@x.example"),
          ("name", Json.str "Vis"), ("message", Json.str "hi")])⟩ [] rfl rfl).2.2
      rfl⟩

/-- C5: the allow-origin header echoes the request origin exactly when it
is a configured key and is empty otherwise (also when absent); the
methods header is the fixed POST, OPTIONS string; every terminal response
of the dispatcher carries the computed CORS headers; and an OPTIONS
request on any path is answered 204 with no body and only those
headers. -/
theorem cors_policy (cfg : ConfigStore) (origin : Option String) :
    (∀ o, origin = some o → (cfg.lookup o).isSome = true →
      (corsHeaders cfg origin).lookup "Access-Control-Allow-Origin" = some o) ∧
    (origin = none →
      (corsHeaders cfg origin).lookup "Access-Control-Allow-Origin" = some "") ∧
    (∀ o, origin = some o → cfg.lookup o = none →
      (corsHeaders cfg origin).lookup "Access-Control-Allow-Origin" = some "") ∧
    (corsHeaders cfg origin).lookup "Access-Control-Allow-Methods" =
      some "POST, OPTIONS" ∧
    (∀ now mailOk req rl, req.origin = origin →
      ∀ h ∈ corsHeaders cfg origin, h ∈ (fetch cfg now mailOk req rl).resp.headers) ∧
    (∀ now mailOk req rl, req.origin = origin → req.method = "OPTIONS" →
      (fetch cfg now mailOk req rl).resp.status = 204 ∧
      (fetch cfg now mailOk req rl).resp.body = none ∧
      (fetch cfg now mailOk req rl).resp.headers = corsHeaders cfg origin) := by
  refine ⟨?_, ?_, ?_, ?_, ?_, ?_⟩
  · intro o ho hk
    subst ho
    by_cases h0 : o = ""
    · subst h0
      simp [corsHeaders, List.lookup]
    · simp [corsHeaders, isAllowedOrigin, h0, hk, List.lookup]
  · intro ho
    subst ho
    simp [corsHeaders, List.lookup]
  · intro o ho hk
    subst ho
    simp [corsHeaders, isAllowedOrigin, hk, List.lookup]
  · rcases origin with _ | o
    · simp [corsHeaders, List.lookup]
    · simp [corsHeaders, List.lookup]
  · intro now mailOk req rl ho h hmem
    subst ho
    unfold fetch jsonResp
    repeat' split
    all_goals
      first
        | exact hmem
        | exact List.mem_cons_of_mem _ hmem
        | (by_cases hc : (isRateLimited now rl (clientKey req)).1 = true <;>
            simp [hc, List.mem_cons, hmem])
  · intro now mailOk req rl ho hm
    subst ho
    simp [fetch, hm]

/-- C5 witness: concrete header values and a concrete 404 and OPTIONS
exchange carrying them. -/
theorem cors_policy_witness :
    (corsHeaders [("https://a.example",
        ⟨"A", "t@a.example", ⟨"h", 587, false, "u", "p"⟩⟩)]
      (some "https://a.example")).lookup "Access-Control-Allow-Origin" =
        some "https://a.example" ∧
    (corsHeaders [("https://a.example",
        ⟨"A", "t@a.example", ⟨"h", 587, false, "u", "p"⟩⟩)]
      none).lookup "Access-Control-Allow-Origin" = some "" ∧
    (corsHeaders [("https://a.example",
        ⟨"A", "t@a.example", ⟨"h", 587, false, "u", "p"⟩⟩)]
      (some "https://b.example")).lookup "Access-Control-Allow-Origin" =
        some "" ∧
    (corsHeaders [("https://a.example",
        ⟨"A", "t@a.example", ⟨"h", 587, false, "u", "p"⟩⟩)]
      (some "https://a.example")).lookup "Access-Control-Allow-Methods" =
        some "POST, OPTIONS" ∧
    ("Access-Control-Allow-Origin", "https://a.example") ∈
      (fetch [("https://a.example",
          ⟨"A", "t@a.example", ⟨"h", 587, false, "u", "p"⟩⟩)] 7 true
        ⟨"GET", "/nope", some "https://a.example", none, some "9.9.9.9", none⟩
        []).resp.headers ∧
    (fetch [("https://a.example",
        ⟨"A", "t@a.example", ⟨"h", 587, false, "u", "p"⟩⟩)] 7 true
      ⟨"OPTIONS", "/api/send", some "https://a.example", none,
        some "9.9.9.9", none⟩ []).resp.status = 204 ∧
    (fetch [("https://a.example",
        ⟨"A", "t@a.example", ⟨"h", 587, false, "u", "p"⟩⟩)] 7 true
      ⟨"OPTIONS", "/api/send", some "https://a.example", none,
        some "9.9.9.9", none⟩ []).resp.body = none :=
  ⟨(cors_policy _ (some "https://a.example")).1 "https://a.example" rfl rfl,
   (cors_policy [("https://a.example",
      ⟨"A", "t@a.example", ⟨"h", 587, false, "u", "p"⟩⟩)] none).2.1 rfl,
   (cors_policy _ (some "https://b.example")).2.2.1 "https://b.example" rfl rfl,
   (cors_policy [("https://a.example",
      ⟨"A", "t@a.example", ⟨"h", 587, false, "u", "p"⟩⟩)]
      (some "https://a.example")).2.2.2.1,
   (cors_policy _ (some "https://a.example")).2.2.2.2.1 7 true
     ⟨"GET", "/nope", some "https://a.example", none, some "9.9.9.9", none⟩
     [] rfl ("Access-Control-Allow-Origin", "https://a.example") (by decide),
   ((cors_policy _ (some "https://a.example")).2.2.2.2.2 7 true
     ⟨"OPTIONS", "/api/send", some "https://a.example", none,
       some "9.9.9.9", none⟩ [] rfl rfl).1,
   ((cors_policy _ (some "https://a.example")).2.2.2.2.2 7 true
     ⟨"OPTIONS", "/api/send", some "https://a.example", none,
       some "9.9.9.9", none⟩ [] rfl rfl).2.1⟩

end EmailApi
